import Mathlib

/-!
Verification of the `PyScpiInstrument` SCPI wrapper.

The repository's single source file, `PyScpiInstrument.py`, is a thin
binding that forwards instrument-control operations (command, query,
binary-block query and write, error-queue draining, operation-complete
wait, reset, open/close) to an external `GenericScpiInstrument` driver
object held in `self._io`.

The embedding below models the external driver as an oracle: a structure
whose fields give, for each driver method the wrapper calls, the method's
outcome (`Except DriverExc`) together with the number of transport
operations it performed.  The wrapper methods themselves are translated
directly from the Python source: the `try/except` blocks around
`ScpiQuery`/`ScpiCommand` become explicit matches on the driver outcome,
and an exception raised while another is being handled carries that
handled exception as its context, following Python's implicit exception
chaining.

Behaviour the repository delegates wholesale to the external driver
(session-state gating, close idempotence, IEEE-488.2 binary-block
framing) is not present in the source file; those parts are modelled
from the specification and are marked `Modelled from the spec:` in their
doc comments.
-/

namespace PyScpi

/-- Failure taxonomy of the external driver, as the specification
classifies transport and session failures. -/
inductive DriverExc where
  | notConnected
  | timeout
  | ioError
  | protocolError
  | other (msg : String)
deriving DecidableEq, Repr

/-- One instrument error-queue record: the external driver's
`ScpiError` carries an integer `Code` and a string `Message`. -/
structure ScpiErrorRec where
  Code : Int
  Message : String
deriving DecidableEq, Repr

/-- A Python-level exception as surfaced by the wrapper.  `context`
models Python's implicit exception chaining (`__context__`): an
exception raised inside an `except` block records the exception that was
being handled.  In every wrapper path the chained exception is a bare
driver exception, so the context is an `Option DriverExc`. -/
inductive PyExc where
  | typeError (msg : String)
  | exception (msg : String) (context : Option DriverExc)
  | driverExc (e : DriverExc) (context : Option DriverExc)
deriving DecidableEq, Repr

/-- `true` exactly when the surfaced exception is, at top level, the
driver's connection-state failure. -/
def PyExc.isNotConnected : PyExc → Bool
  | .driverExc .notConnected _ => true
  | _ => false

/-- Opaque 32-bit float pattern (`System.Single` element of a decoded
binary block); the bit pattern is all the claims need. -/
structure Single where
  bits : Nat
deriving DecidableEq, Repr

/-- Opaque 64-bit float pattern (`System.Double` element of a decoded
binary block). -/
structure Double where
  bits : Nat
deriving DecidableEq, Repr

/-- Result of a binary-block query: a tagged union over raw bytes,
32-bit floats and 64-bit floats. -/
inductive BinBlock where
  | rawBytes (bs : List Nat)
  | floats32 (xs : List Single)
  | floats64 (xs : List Double)
deriving DecidableEq, Repr

/-- Oracle for the external `GenericScpiInstrument` driver (`self._io`).
Each field returns the outcome of one driver method together with the
number of transport operations that method performed.  The generic
`ScpiQueryBlock` method appears once per element type the wrapper
instantiates it at. -/
structure Driver where
  ScpiQuery : String → Bool → Except DriverExc String × Nat
  ScpiCommand : String → Except DriverExc Unit × Nat
  QueryErrors : Bool → Nat → Except DriverExc (List ScpiErrorRec) × Nat
  ScpiQueryBlockBytes : String → Except DriverExc (List Nat) × Nat
  ScpiQueryBlockSingle : String → Except DriverExc (List Single) × Nat
  ScpiQueryBlockDouble : String → Except DriverExc (List Double) × Nat
  ScpiIEEEBlockCommand : String → List Nat → Except DriverExc Unit × Nat
  WaitForOperationComplete : Nat → Except DriverExc Unit × Nat
  Reset : Unit → Except DriverExc Unit × Nat

/-- Python's `','.join`, specialised to the comma separator used by
`QueryErrors`. -/
def joinComma : List String → String
  | [] => ""
  | [s] => s
  | s :: rest => s ++ "," ++ joinComma rest

/-- The per-record format of `QueryErrors`: the Python
`"\x7b\x7d - \x7b\x7d".format(err.Code, err.Message)` comprehension body. -/
def formatRec (err : ScpiErrorRec) : String :=
  toString err.Code ++ " - " ++ err.Message

namespace PyScpiInstrument

/-- `PyScpiInstrument.QueryErrors`: calls the driver's `QueryErrors`
with the suppress flag and maximum count, and joins the returned records
as comma-separated `code - message` pairs.  A driver failure
propagates. -/
def QueryErrors (drv : Driver) (suppress : Bool) (maxErrors : Nat) :
    Except DriverExc String × Nat :=
  match drv.QueryErrors suppress maxErrors with
  | (.ok recs, n) => (.ok (joinComma (recs.map formatRec)), n)
  | (.error e, n) => (.error e, n)

/-- `PyScpiInstrument.ScpiQuery`: forwards to the driver's `ScpiQuery`
with the negated verbose flag.  On a driver exception `e` the handler
drains the error queue via `QueryErrors` with its default arguments
(`suppress = false`, `maxErrors = 1000`): if draining yields a truthy
(non-empty) string a new `Exception` is raised whose message embeds the
instrument name and the queued errors and whose context is `e`; if it
yields the empty string, `e` is re-raised unchanged; if draining itself
raises `e2`, then `e2` propagates with `e` as its context. -/
def ScpiQuery (drv : Driver) (name : String) (query : String) (verbose : Bool) :
    Except PyExc String × Nat :=
  match drv.ScpiQuery query (!verbose) with
  | (.ok s, n) => (.ok s, n)
  | (.error e, n) =>
    match QueryErrors drv false 1000 with
    | (.ok errors, n2) =>
      if errors ≠ "" then
        (.error (.exception (name ++ " errors: " ++ errors) (some e)), n + n2)
      else
        (.error (.driverExc e none), n + n2)
    | (.error e2, n2) => (.error (.driverExc e2 (some e)), n + n2)

/-- `PyScpiInstrument.ScpiCommand`: same failure handling as
`ScpiQuery`, forwarding to the driver's `ScpiCommand`. -/
def ScpiCommand (drv : Driver) (name : String) (command : String) :
    Except PyExc Unit × Nat :=
  match drv.ScpiCommand command with
  | (.ok u, n) => (.ok u, n)
  | (.error e, n) =>
    match QueryErrors drv false 1000 with
    | (.ok errors, n2) =>
      if errors ≠ "" then
        (.error (.exception (name ++ " errors: " ++ errors) (some e)), n + n2)
      else
        (.error (.driverExc e none), n + n2)
    | (.error e2, n2) => (.error (.driverExc e2 (some e)), n + n2)

/-- `PyScpiInstrument.QueryBinaryValues`: dispatches on the single
character datatype tag.  Tags `b` and `B` read the block as raw bytes,
`f` as 32-bit floats, `d` as 64-bit floats; every other tag raises
`TypeError` before any driver call.  Driver exceptions propagate
uncaught. -/
def QueryBinaryValues (drv : Driver) (query : String) (datatype : String) :
    Except PyExc BinBlock × Nat :=
  if datatype = "b" ∨ datatype = "B" then
    match drv.ScpiQueryBlockBytes query with
    | (.ok bs, n) => (.ok (.rawBytes bs), n)
    | (.error e, n) => (.error (.driverExc e none), n)
  else if datatype = "f" then
    match drv.ScpiQueryBlockSingle query with
    | (.ok xs, n) => (.ok (.floats32 xs), n)
    | (.error e, n) => (.error (.driverExc e none), n)
  else if datatype = "d" then
    match drv.ScpiQueryBlockDouble query with
    | (.ok xs, n) => (.ok (.floats64 xs), n)
    | (.error e, n) => (.error (.driverExc e none), n)
  else
    (.error (.typeError "Invalid data type selected."), 0)

/-- `PyScpiInstrument.WriteBinaryValues`: forwards command text and
payload to the driver's `ScpiIEEEBlockCommand` unconditionally; there is
no size check of any kind.  Driver exceptions propagate uncaught. -/
def WriteBinaryValues (drv : Driver) (command : String) (data : List Nat) :
    Except PyExc Unit × Nat :=
  match drv.ScpiIEEEBlockCommand command data with
  | (.ok u, n) => (.ok u, n)
  | (.error e, n) => (.error (.driverExc e none), n)

/-- `PyScpiInstrument.WaitForOperationComplete`: forwards to the driver;
exceptions propagate uncaught. -/
def WaitForOperationComplete (drv : Driver) (timeoutMs : Nat) :
    Except PyExc Unit × Nat :=
  match drv.WaitForOperationComplete timeoutMs with
  | (.ok u, n) => (.ok u, n)
  | (.error e, n) => (.error (.driverExc e none), n)

/-- `PyScpiInstrument.Reset`: forwards to the driver; exceptions
propagate uncaught. -/
def Reset (drv : Driver) : Except PyExc Unit × Nat :=
  match drv.Reset () with
  | (.ok u, n) => (.ok u, n)
  | (.error e, n) => (.error (.driverExc e none), n)

end PyScpiInstrument

example : toString (-113 : Int) = "-113" := rfl

example :
    formatRec ⟨-113, "Undefined header"⟩ = "-113 - Undefined header" := rfl

example :
    joinComma ["-113 - Undefined header", "-222 - Data out of range"] =
      "-113 - Undefined header,-222 - Data out of range" := rfl

/-! ## Spec-modelled external driver behaviour

The session-state machine, close idempotence and the IEEE-488.2 binary
block framing live in the external `GenericScpiInstrument` driver the
repository wraps; they are not present in the source file and are
modelled here from the specification. -/

/-- Modelled from the spec: the Session state machine of the external
driver has exactly the states Closed and Open. -/
inductive SessionState where
  | opened
  | closed
deriving DecidableEq, Repr

/-- Modelled from the spec: the external driver's `Close` is idempotent,
sends the session to the Closed state from any state, and succeeds even
when the session is already closed. -/
def driverClose (_s : SessionState) : SessionState × Except DriverExc Unit :=
  (SessionState.closed, Except.ok ())

/-- `PyScpiInstrument.Close`: logs and forwards to the driver's
`Close` (the log message carries no session effect and is elided). -/
def Close (s : SessionState) : SessionState × Except DriverExc Unit :=
  driverClose s

/-- Modelled from the spec: on a closed session every external driver
operation fails immediately with the connection-state error
(`NotConnectedError`) and performs zero transport operations. -/
def closedDriver : Driver where
  ScpiQuery := fun _ _ => (.error .notConnected, 0)
  ScpiCommand := fun _ => (.error .notConnected, 0)
  QueryErrors := fun _ _ => (.error .notConnected, 0)
  ScpiQueryBlockBytes := fun _ => (.error .notConnected, 0)
  ScpiQueryBlockSingle := fun _ => (.error .notConnected, 0)
  ScpiQueryBlockDouble := fun _ => (.error .notConnected, 0)
  ScpiIEEEBlockCommand := fun _ _ => (.error .notConnected, 0)
  WaitForOperationComplete := fun _ => (.error .notConnected, 0)
  Reset := fun _ => (.error .notConnected, 0)

/-! ## IEEE-488.2 definite-length binary block framing

Modelled from the spec: the frame is `#`, one character giving the
decimal digit count of the length field, that many decimal digits giving
the payload byte length, then the raw payload.  Bytes are `Nat`s; the
decimal fields are written the way a decimal `toString` would write
them. -/

/-- Big-endian decimal digits of `n`; the fuel argument makes the
recursion structural and is always supplied as `n + 1`, which is ample
since the argument at least halves every step. -/
def decDigitsAux : Nat → Nat → List Nat
  | 0, _ => []
  | fuel + 1, n => if n < 10 then [n] else decDigitsAux fuel (n / 10) ++ [n % 10]

/-- The ASCII bytes of the decimal representation of `n`. -/
def decRepr (n : Nat) : List Nat :=
  (decDigitsAux (n + 1) n).map (fun d => d + 48)

/-- Parse a big-endian run of ASCII decimal digit bytes. -/
def parseDec (l : List Nat) : Nat :=
  l.foldl (fun acc c => 10 * acc + (c - 48)) 0

/-- `true` when the byte is an ASCII decimal digit. -/
def isDigitByte (c : Nat) : Bool :=
  decide (48 ≤ c) && decide (c < 58)

/-- Modelled from the spec: encode a payload with the IEEE-488.2
definite-length block header (`#`, digit count of the length field, the
length digits, then the payload). -/
def ieeeEncode (B : List Nat) : List Nat :=
  35 :: (decRepr (decRepr B.length).length ++ (decRepr B.length ++ B))

/-- Modelled from the spec: parse an IEEE-488.2 definite-length block,
failing on a malformed header or on a payload whose length mismatches
the declared length. -/
def ieeeDecode (s : List Nat) : Option (List Nat) :=
  match s with
  | 35 :: d :: rest =>
    if isDigitByte d then
      if (rest.take (d - 48)).length = d - 48 ∧
          (rest.take (d - 48)).all isDigitByte then
        if (rest.drop (d - 48)).length = parseDec (rest.take (d - 48)) then
          some (rest.drop (d - 48))
        else none
      else none
    else none
  | _ => none

example : ieeeEncode [7, 8, 9] = [35, 49, 51, 7, 8, 9] := rfl

example : ieeeDecode [35, 49, 51, 7, 8, 9] = some [7, 8, 9] := rfl

example : ieeeDecode (ieeeEncode []) = some [] := rfl

/-- Modelled from the spec: assemble consecutive groups of four payload
bytes, least significant byte first, into 32-bit float patterns; fails
when the payload length is not a multiple of four. -/
def bytesToSingles : List Nat → Option (List Single)
  | [] => some []
  | b0 :: b1 :: b2 :: b3 :: rest =>
    (bytesToSingles rest).map
      (fun xs => ⟨b0 + 256 * b1 + 65536 * b2 + 16777216 * b3⟩ :: xs)
  | _ => none

/-- Modelled from the spec: assemble consecutive groups of eight payload
bytes, least significant byte first, into 64-bit float patterns; fails
when the payload length is not a multiple of eight. -/
def bytesToDoubles : List Nat → Option (List Double)
  | [] => some []
  | b0 :: b1 :: b2 :: b3 :: b4 :: b5 :: b6 :: b7 :: rest =>
    (bytesToDoubles rest).map
      (fun xs =>
        ⟨b0 + 256 * b1 + 65536 * b2 + 16777216 * b3 +
            4294967296 * (b4 + 256 * b5 + 65536 * b6 + 16777216 * b7)⟩ :: xs)
  | _ => none

/-- Modelled from the spec: the driver's raw-bytes block read over wire
bytes `w` parses the IEEE framing and yields the payload. -/
def blockBytesResult (w : List Nat) : Except DriverExc (List Nat) :=
  match ieeeDecode w with
  | some p => .ok p
  | none => .error .protocolError

/-- Modelled from the spec: the driver's 32-bit float block read parses
the IEEE framing and decodes the payload into 32-bit patterns. -/
def blockSinglesResult (w : List Nat) : Except DriverExc (List Single) :=
  match ieeeDecode w with
  | some p =>
    match bytesToSingles p with
    | some xs => .ok xs
    | none => .error .protocolError
  | none => .error .protocolError

/-- Modelled from the spec: the driver's 64-bit float block read parses
the IEEE framing and decodes the payload into 64-bit patterns. -/
def blockDoublesResult (w : List Nat) : Except DriverExc (List Double) :=
  match ieeeDecode w with
  | some p =>
    match bytesToDoubles p with
    | some xs => .ok xs
    | none => .error .protocolError
  | none => .error .protocolError

/-- Modelled from the spec: an open-session driver whose binary block
queries read the wire bytes `w`; used both for type dispatch and for the
loopback round trip, where `w` is exactly what the binary write path put
on the wire. -/
def blockDriver (w : List Nat) : Driver where
  ScpiQuery := fun _ _ => (.ok "", 1)
  ScpiCommand := fun _ => (.ok (), 1)
  QueryErrors := fun _ _ => (.ok [], 1)
  ScpiQueryBlockBytes := fun _ => (blockBytesResult w, 1)
  ScpiQueryBlockSingle := fun _ => (blockSinglesResult w, 1)
  ScpiQueryBlockDouble := fun _ => (blockDoublesResult w, 1)
  ScpiIEEEBlockCommand := fun _ _ => (.ok (), 1)
  WaitForOperationComplete := fun _ => (.ok (), 1)
  Reset := fun _ => (.ok (), 1)

/-! ## Decimal representation and framing lemmas -/

theorem parseDec_append (l : List Nat) (d : Nat) :
    parseDec (l ++ [d]) = 10 * parseDec l + (d - 48) := by
  simp [parseDec, List.foldl_append]

theorem decDigitsAux_lt_ten (fuel n : Nat) :
    ∀ d ∈ decDigitsAux fuel n, d < 10 := by
  induction fuel generalizing n with
  | zero => simp [decDigitsAux]
  | succ fuel ih =>
    intro d hd
    by_cases h : n < 10
    · simp [decDigitsAux, h] at hd
      omega
    · simp [decDigitsAux, h] at hd
      rcases hd with hd | hd
      · exact ih _ _ hd
      · omega

theorem decDigitsAux_ne_nil (fuel n : Nat) : decDigitsAux (fuel + 1) n ≠ [] := by
  by_cases h : n < 10
  · simp [decDigitsAux, h]
  · simp [decDigitsAux, h]

theorem decDigitsAux_length_le (fuel n k : Nat) (hk : 1 ≤ k)
    (h : n < 10 ^ k) : (decDigitsAux fuel n).length ≤ k := by
  induction fuel generalizing n k with
  | zero => simp [decDigitsAux]
  | succ fuel ih =>
    by_cases hn : n < 10
    · simpa [decDigitsAux, hn] using hk
    · have hk2 : 2 ≤ k := by
        by_contra hk1
        have hk1' : k = 1 := by omega
        subst hk1'
        norm_num at h
        omega
      have hdiv : n / 10 < 10 ^ (k - 1) := by
        have : (10 : Nat) ^ k = 10 ^ (k - 1) * 10 := by
          rw [← pow_succ]
          congr 1
          omega
        exact (Nat.div_lt_iff_lt_mul (by norm_num)).mpr (by omega)
      have := ih (n / 10) (k - 1) (by omega) hdiv
      simp only [decDigitsAux, hn, if_false, List.length_append, List.length_cons,
        List.length_nil]
      omega

theorem parseDec_decDigitsAux (fuel n : Nat) (h : n < fuel) :
    parseDec ((decDigitsAux fuel n).map (fun d => d + 48)) = n := by
  induction fuel generalizing n with
  | zero => omega
  | succ fuel ih =>
    by_cases hn : n < 10
    · simp [decDigitsAux, hn, parseDec]
    · have hd : n / 10 < n := Nat.div_lt_self (by omega) (by norm_num)
      have hrec := ih (n / 10) (by omega)
      simp only [decDigitsAux, hn, if_false, List.map_append, List.map_cons,
        List.map_nil, parseDec_append, hrec]
      omega

theorem parseDec_decRepr (n : Nat) : parseDec (decRepr n) = n :=
  parseDec_decDigitsAux (n + 1) n (Nat.lt_succ_self n)

theorem decRepr_length_pos (n : Nat) : 1 ≤ (decRepr n).length := by
  rw [decRepr, List.length_map]
  have := decDigitsAux_ne_nil n n
  exact List.length_pos.mpr this

theorem decRepr_length_le (n k : Nat) (hk : 1 ≤ k) (h : n < 10 ^ k) :
    (decRepr n).length ≤ k := by
  rw [decRepr, List.length_map]
  exact decDigitsAux_length_le (n + 1) n k hk h

theorem decRepr_digits (n : Nat) : ∀ x ∈ decRepr n, isDigitByte x = true := by
  intro x hx
  rw [decRepr, List.mem_map] at hx
  obtain ⟨d, hd, rfl⟩ := hx
  have := decDigitsAux_lt_ten (n + 1) n d hd
  simp [isDigitByte]
  omega

theorem decRepr_single (k : Nat) (h : k < 10) : decRepr k = [k + 48] := by
  simp [decRepr, decDigitsAux, h]

/-- Modelled from the spec, round-trip direction: decoding the framed
encoding of any payload whose length fits the one-digit digit-count
field recovers the payload. -/
theorem ieeeDecode_ieeeEncode (B : List Nat) (h : B.length < 10 ^ 9) :
    ieeeDecode (ieeeEncode B) = some B := by
  have hle : (decRepr B.length).length ≤ 9 :=
    decRepr_length_le B.length 9 (by norm_num) h
  have hpos : 1 ≤ (decRepr B.length).length := decRepr_length_pos B.length
  have hnd : decRepr (decRepr B.length).length =
      [(decRepr B.length).length + 48] := decRepr_single _ (by omega)
  have henc : ieeeEncode B =
      35 :: ((decRepr B.length).length + 48) :: (decRepr B.length ++ B) := by
    rw [ieeeEncode, hnd]
    rfl
  have hdig : isDigitByte ((decRepr B.length).length + 48) = true := by
    simp [isDigitByte]
    omega
  have hsub : (decRepr B.length).length + 48 - 48 = (decRepr B.length).length := by
    omega
  have hall : (decRepr B.length).all isDigitByte = true := by
    rw [List.all_eq_true]
    intro x hx
    exact decRepr_digits B.length x hx
  rw [henc, ieeeDecode, hsub, List.take_left, List.drop_left, parseDec_decRepr]
  simp [hdig, hall]

example : ieeeDecode (ieeeEncode [7, 8, 9, 10]) = some [7, 8, 9, 10] := by
  exact ieeeDecode_ieeeEncode [7, 8, 9, 10] (by norm_num)

/-- Concrete open driver whose query fails with a timeout and whose
error-queue drain then also fails with a transport error. -/
def drainFailDriver : Driver where
  ScpiQuery := fun _ _ => (.error .timeout, 1)
  ScpiCommand := fun _ => (.error .timeout, 1)
  QueryErrors := fun _ _ => (.error .ioError, 1)
  ScpiQueryBlockBytes := fun _ => (.ok [], 1)
  ScpiQueryBlockSingle := fun _ => (.ok [], 1)
  ScpiQueryBlockDouble := fun _ => (.ok [], 1)
  ScpiIEEEBlockCommand := fun _ _ => (.ok (), 1)
  WaitForOperationComplete := fun _ => (.ok (), 1)
  Reset := fun _ => (.ok (), 1)

/-- Concrete open driver whose query fails with a timeout and whose
error-queue drain returns one queued instrument error. -/
def queuedErrDriver : Driver where
  ScpiQuery := fun _ _ => (.error .timeout, 1)
  ScpiCommand := fun _ => (.error .timeout, 1)
  QueryErrors := fun _ _ => (.ok [⟨-113, "Undefined header"⟩], 1)
  ScpiQueryBlockBytes := fun _ => (.ok [], 1)
  ScpiQueryBlockSingle := fun _ => (.ok [], 1)
  ScpiQueryBlockDouble := fun _ => (.ok [], 1)
  ScpiIEEEBlockCommand := fun _ _ => (.ok (), 1)
  WaitForOperationComplete := fun _ => (.ok (), 1)
  Reset := fun _ => (.ok (), 1)

/-- Concrete open driver whose query fails with a transport error and
whose error-queue drain completes with an empty queue. -/
def emptyQueueDriver : Driver where
  ScpiQuery := fun _ _ => (.error .ioError, 1)
  ScpiCommand := fun _ => (.error .ioError, 1)
  QueryErrors := fun _ _ => (.ok [], 1)
  ScpiQueryBlockBytes := fun _ => (.ok [], 1)
  ScpiQueryBlockSingle := fun _ => (.ok [], 1)
  ScpiQueryBlockDouble := fun _ => (.ok [], 1)
  ScpiIEEEBlockCommand := fun _ _ => (.ok (), 1)
  WaitForOperationComplete := fun _ => (.ok (), 1)
  Reset := fun _ => (.ok (), 1)

instance {ε α : Type} [DecidableEq ε] [DecidableEq α] : DecidableEq (Except ε α) :=
  fun x y =>
    match x, y with
    | .ok a, .ok b =>
      if h : a = b then .isTrue (by rw [h])
      else .isFalse (by intro hc; injection hc; contradiction)
    | .error a, .error b =>
      if h : a = b then .isTrue (by rw [h])
      else .isFalse (by intro hc; injection hc; contradiction)
    | .ok _, .error _ => .isFalse (fun hc => Except.noConfusion hc)
    | .error _, .ok _ => .isFalse (fun hc => Except.noConfusion hc)

/-! ## Claim theorems -/

/-- C1: when the driver's query (or command) raises and the subsequent
error-queue drain returns a non-empty result, the wrapper raises an
`Exception` whose message embeds the queued instrument errors and whose
chained context is the original driver failure — both causes are present
and kept apart (message vs. context), rather than only one being
reported. -/
theorem scpiQuery_failure_reports_both_causes :
    (∀ (drv : Driver) (name q : String) (v : Bool) (e : DriverExc)
        (n : Nat) (s : String) (n2 : Nat),
      drv.ScpiQuery q (!v) = (.error e, n) →
      PyScpiInstrument.QueryErrors drv false 1000 = (.ok s, n2) →
      s ≠ "" →
      PyScpiInstrument.ScpiQuery drv name q v =
        (.error (.exception (name ++ " errors: " ++ s) (some e)), n + n2)) ∧
    (∀ (drv : Driver) (name c : String) (e : DriverExc)
        (n : Nat) (s : String) (n2 : Nat),
      drv.ScpiCommand c = (.error e, n) →
      PyScpiInstrument.QueryErrors drv false 1000 = (.ok s, n2) →
      s ≠ "" →
      PyScpiInstrument.ScpiCommand drv name c =
        (.error (.exception (name ++ " errors: " ++ s) (some e)), n + n2)) := by
  constructor
  · intro drv name q v e n s n2 hq hqe hs
    simp [PyScpiInstrument.ScpiQuery, hq, hqe, hs]
  · intro drv name c e n s n2 hc hqe hs
    simp [PyScpiInstrument.ScpiCommand, hc, hqe, hs]

/-- C1 witness: a timed-out query over a driver with one queued error
surfaces an `Exception` embedding the queued record, with the timeout as
its context. -/
theorem scpiQuery_failure_reports_both_causes_witness :
    PyScpiInstrument.ScpiQuery queuedErrDriver "PySCPI" "FREQ?" true =
      (.error (.exception "PySCPI errors: -113 - Undefined header"
        (some .timeout)), 2) :=
  scpiQuery_failure_reports_both_causes.1 queuedErrDriver "PySCPI" "FREQ?" true
    .timeout 1 "-113 - Undefined header" 1 rfl rfl (by decide)

/-- C2 counterexample: when the error-queue drain performed in the
failure handler itself raises, the wrapper surfaces the drain failure
(the transport error), not the original timeout; the original survives
only as the chained context. -/
theorem scpiQuery_drain_failure_cex :
    PyScpiInstrument.ScpiQuery drainFailDriver "PySCPI" "FREQ?" true =
      (.error (.driverExc .ioError (some .timeout)), 2) ∧
    (PyScpiInstrument.ScpiQuery drainFailDriver "PySCPI" "FREQ?" true).1 ≠
      .error (.driverExc .timeout none) ∧
    (PyScpiInstrument.ScpiQuery drainFailDriver "PySCPI" "FREQ?" true).1 ≠
      .error (.driverExc .timeout (some .ioError)) :=
  ⟨rfl, by decide, by decide⟩

/-- C2 amended: if the drain performed in the failure handler raises
`e2` while handling the original failure `e`, the wrapper surfaces `e2`
with `e` attached as its chained context — the root cause is preserved
in the exception chain, but the drain failure, not the original, is the
exception the caller receives. -/
theorem scpiQuery_drain_failure_chains :
    (∀ (drv : Driver) (name q : String) (v : Bool) (e e2 : DriverExc)
        (n n2 : Nat),
      drv.ScpiQuery q (!v) = (.error e, n) →
      drv.QueryErrors false 1000 = (.error e2, n2) →
      PyScpiInstrument.ScpiQuery drv name q v =
        (.error (.driverExc e2 (some e)), n + n2)) ∧
    (∀ (drv : Driver) (name c : String) (e e2 : DriverExc) (n n2 : Nat),
      drv.ScpiCommand c = (.error e, n) →
      drv.QueryErrors false 1000 = (.error e2, n2) →
      PyScpiInstrument.ScpiCommand drv name c =
        (.error (.driverExc e2 (some e)), n + n2)) := by
  constructor
  · intro drv name q v e e2 n n2 hq hqe
    simp [PyScpiInstrument.ScpiQuery, PyScpiInstrument.QueryErrors, hq, hqe]
  · intro drv name c e e2 n n2 hc hqe
    simp [PyScpiInstrument.ScpiCommand, PyScpiInstrument.QueryErrors, hc, hqe]

/-- C2 amended witness: concrete instance of the chained drain
failure. -/
theorem scpiQuery_drain_failure_chains_witness :
    PyScpiInstrument.ScpiCommand drainFailDriver "PySCPI" "*RST" =
      (.error (.driverExc .ioError (some .timeout)), 2) :=
  scpiQuery_drain_failure_chains.2 drainFailDriver "PySCPI" "*RST"
    .timeout .ioError 1 1 rfl rfl

/-- C7: when the driver's query (or command) raises and the drain
completes with an empty error queue, the wrapper re-raises the original
driver exception unchanged — same exception value, no wrapper exception,
no context added. -/
theorem scpiQuery_empty_drain_reraises_original :
    (∀ (drv : Driver) (name q : String) (v : Bool) (e : DriverExc)
        (n n2 : Nat),
      drv.ScpiQuery q (!v) = (.error e, n) →
      drv.QueryErrors false 1000 = (.ok [], n2) →
      PyScpiInstrument.ScpiQuery drv name q v =
        (.error (.driverExc e none), n + n2)) ∧
    (∀ (drv : Driver) (name c : String) (e : DriverExc) (n n2 : Nat),
      drv.ScpiCommand c = (.error e, n) →
      drv.QueryErrors false 1000 = (.ok [], n2) →
      PyScpiInstrument.ScpiCommand drv name c =
        (.error (.driverExc e none), n + n2)) := by
  constructor
  · intro drv name q v e n n2 hq hqe
    simp [PyScpiInstrument.ScpiQuery, PyScpiInstrument.QueryErrors, hq, hqe,
      joinComma]
  · intro drv name c e n n2 hc hqe
    simp [PyScpiInstrument.ScpiCommand, PyScpiInstrument.QueryErrors, hc, hqe,
      joinComma]

/-- C7 witness: a transport failure with a clean error queue surfaces
exactly the original transport failure. -/
theorem scpiQuery_empty_drain_reraises_original_witness :
    PyScpiInstrument.ScpiQuery emptyQueueDriver "PySCPI" "FREQ?" true =
      (.error (.driverExc .ioError none), 2) :=
  scpiQuery_empty_drain_reraises_original.1 emptyQueueDriver "PySCPI" "FREQ?"
    true .ioError 1 1 rfl rfl

/-- C4: `QueryErrors` joins the drained records as `code - message`
pairs separated by commas, in drain order: the wrapper applies exactly
this join to the driver's record list, the join satisfies the
head-comma-tail recurrence, the empty sequence formats to the empty
string, and the two-record example formats to exactly
`-113 - Undefined header,-222 - Data out of range`. -/
theorem queryErrors_formats_drain_order :
    (∀ (drv : Driver) (sup : Bool) (mx : Nat) (recs : List ScpiErrorRec)
        (n : Nat),
      drv.QueryErrors sup mx = (.ok recs, n) →
      PyScpiInstrument.QueryErrors drv sup mx =
        (.ok (joinComma (recs.map formatRec)), n)) ∧
    (∀ (r : ScpiErrorRec) (rest : List ScpiErrorRec),
      joinComma ((r :: rest).map formatRec) =
        (toString r.Code ++ " - " ++ r.Message) ++
          (if rest = [] then "" else "," ++ joinComma (rest.map formatRec))) ∧
    joinComma (([] : List ScpiErrorRec).map formatRec) = "" ∧
    joinComma (([⟨-113, "Undefined header"⟩, ⟨-222, "Data out of range"⟩] :
        List ScpiErrorRec).map formatRec) =
      "-113 - Undefined header,-222 - Data out of range" := by
  refine ⟨?_, ?_, rfl, rfl⟩
  · intro drv sup mx recs n h
    simp [PyScpiInstrument.QueryErrors, h]
  · intro r rest
    cases rest with
    | nil => simp [joinComma, formatRec]
    | cons r2 rest2 => simp [joinComma, formatRec, String.append_assoc]

/-- C4 witness: the wrapper applied to a driver returning one record. -/
theorem queryErrors_formats_drain_order_witness :
    PyScpiInstrument.QueryErrors queuedErrDriver false 1000 =
      (.ok (joinComma (([⟨-113, "Undefined header"⟩] :
        List ScpiErrorRec).map formatRec)), 1) :=
  queryErrors_formats_drain_order.1 queuedErrDriver false 1000
    [⟨-113, "Undefined header"⟩] 1 rfl

/-- C5: for every driver and query, a datatype tag outside the
recognized set fails with `TypeError` and performs zero transport
operations — the dispatch rejects the tag before any driver call. -/
theorem queryBinaryValues_bad_tag_type_error :
    ∀ (drv : Driver) (q tag : String),
      ¬(tag = "b" ∨ tag = "B" ∨ tag = "f" ∨ tag = "d") →
      PyScpiInstrument.QueryBinaryValues drv q tag =
        (.error (.typeError "Invalid data type selected."), 0) := by
  intro drv q tag h
  push_neg at h
  obtain ⟨h1, h2, h3, h4⟩ := h
  simp [PyScpiInstrument.QueryBinaryValues, h1, h2, h3, h4]

/-- C5 witness: the tag `z` fails this way even on a live driver. -/
theorem queryBinaryValues_bad_tag_type_error_witness :
    PyScpiInstrument.QueryBinaryValues queuedErrDriver "CURV?" "z" =
      (.error (.typeError "Invalid data type selected."), 0) :=
  queryBinaryValues_bad_tag_type_error queuedErrDriver "CURV?" "z" (by decide)

/-- C3 counterexample: on a closed session, a binary query with an
unrecognized datatype tag fails with the type error, not with the
connection-state error — the tag dispatch precedes any driver call, so
the closed state is never consulted. -/
theorem closed_session_bad_tag_cex :
    PyScpiInstrument.QueryBinaryValues closedDriver "CURV?" "w" =
      (.error (.typeError "Invalid data type selected."), 0) ∧
    PyExc.isNotConnected (.typeError "Invalid data type selected.") = false :=
  ⟨rfl, rfl⟩

/-- C3 amended: every operation invoked on a closed session fails
without performing any transport operation and never silently succeeds.
Command, query, binary write, operation-complete wait and reset fail
with the connection-state error (on the command/query paths the failure
handler's drain also hits the closed session, so the surfaced
connection-state error carries the original one as chained context). A
binary query fails with the connection-state error for the recognized
datatype tags, and with the type error for every other tag. -/
theorem closed_session_ops_fail_without_io :
    (∀ name c, PyScpiInstrument.ScpiCommand closedDriver name c =
      (.error (.driverExc .notConnected (some .notConnected)), 0)) ∧
    (∀ name q v, PyScpiInstrument.ScpiQuery closedDriver name q v =
      (.error (.driverExc .notConnected (some .notConnected)), 0)) ∧
    (∀ cmd data, PyScpiInstrument.WriteBinaryValues closedDriver cmd data =
      (.error (.driverExc .notConnected none), 0)) ∧
    (∀ t, PyScpiInstrument.WaitForOperationComplete closedDriver t =
      (.error (.driverExc .notConnected none), 0)) ∧
    (PyScpiInstrument.Reset closedDriver =
      (.error (.driverExc .notConnected none), 0)) ∧
    (∀ q tag, (tag = "b" ∨ tag = "B" ∨ tag = "f" ∨ tag = "d") →
      PyScpiInstrument.QueryBinaryValues closedDriver q tag =
        (.error (.driverExc .notConnected none), 0)) ∧
    (∀ q tag, ¬(tag = "b" ∨ tag = "B" ∨ tag = "f" ∨ tag = "d") →
      PyScpiInstrument.QueryBinaryValues closedDriver q tag =
        (.error (.typeError "Invalid data type selected."), 0)) := by
  refine ⟨fun name c => rfl, fun name q v => rfl, fun cmd data => rfl,
    fun t => rfl, rfl, ?_, ?_⟩
  · intro q tag h
    rcases h with h | h | h | h
    all_goals subst h
    all_goals rfl
  · intro q tag h
    push_neg at h
    obtain ⟨h1, h2, h3, h4⟩ := h
    simp [PyScpiInstrument.QueryBinaryValues, h1, h2, h3, h4]

/-- C3 amended witness: a binary float query on the closed session fails
with the connection-state error and zero transport operations. -/
theorem closed_session_ops_fail_without_io_witness :
    PyScpiInstrument.QueryBinaryValues closedDriver "CURV?" "f" =
      (.error (.driverExc .notConnected none), 0) :=
  closed_session_ops_fail_without_io.2.2.2.2.2.1 "CURV?" "f" (by decide)

/-- C6: the binary query recognizes exactly three kinds and decodes the
block read from the wire accordingly — tags `b` and `B` yield the raw
payload bytes, tag `f` yields the payload regrouped as 32-bit float
patterns, tag `d` yields it regrouped as 64-bit float patterns, and
every other tag is rejected with the type error before any driver
call. -/
theorem queryBinaryValues_kind_dispatch :
    ∀ (w : List Nat) (q : String) (payload : List Nat),
      ieeeDecode w = some payload →
      (PyScpiInstrument.QueryBinaryValues (blockDriver w) q "b" =
          (.ok (.rawBytes payload), 1)) ∧
      (PyScpiInstrument.QueryBinaryValues (blockDriver w) q "B" =
          (.ok (.rawBytes payload), 1)) ∧
      (∀ xs, bytesToSingles payload = some xs →
        PyScpiInstrument.QueryBinaryValues (blockDriver w) q "f" =
          (.ok (.floats32 xs), 1)) ∧
      (∀ xs, bytesToDoubles payload = some xs →
        PyScpiInstrument.QueryBinaryValues (blockDriver w) q "d" =
          (.ok (.floats64 xs), 1)) ∧
      (∀ tag, ¬(tag = "b" ∨ tag = "B" ∨ tag = "f" ∨ tag = "d") →
        PyScpiInstrument.QueryBinaryValues (blockDriver w) q tag =
          (.error (.typeError "Invalid data type selected."), 0)) := by
  intro w q payload hw
  refine ⟨?_, ?_, ?_, ?_, ?_⟩
  · simp [PyScpiInstrument.QueryBinaryValues, blockDriver, blockBytesResult, hw]
  · simp [PyScpiInstrument.QueryBinaryValues, blockDriver, blockBytesResult, hw]
  · intro xs hxs
    simp [PyScpiInstrument.QueryBinaryValues, blockDriver, blockSinglesResult,
      hw, hxs]
  · intro xs hxs
    simp [PyScpiInstrument.QueryBinaryValues, blockDriver, blockDoublesResult,
      hw, hxs]
  · intro tag htag
    push_neg at htag
    obtain ⟨h1, h2, h3, h4⟩ := htag
    simp [PyScpiInstrument.QueryBinaryValues, h1, h2, h3, h4]

/-- C6 witness: an eight-byte block decoded as two 32-bit float
patterns (the bit patterns of 1.0f and 2.0f). -/
theorem queryBinaryValues_kind_dispatch_witness :
    PyScpiInstrument.QueryBinaryValues
        (blockDriver [35, 49, 56, 0, 0, 128, 63, 0, 0, 0, 64]) "CURV?" "f" =
      (.ok (.floats32 [⟨1065353216⟩, ⟨1073741824⟩]), 1) :=
  ((queryBinaryValues_kind_dispatch [35, 49, 56, 0, 0, 128, 63, 0, 0, 0, 64]
      "CURV?" [0, 0, 128, 63, 0, 0, 0, 64] (by decide)).2.2.1)
    [⟨1065353216⟩, ⟨1073741824⟩] (by decide)

/-- C8: the binary write forwards command and payload to the driver's
IEEE block write unconditionally: its outcome is exactly the driver
call's outcome, with no length cap or size precondition that could make
it fail before the write. -/
theorem writeBinaryValues_no_length_cap :
    (∀ (drv : Driver) (cmd : String) (data : List Nat) (n : Nat),
      drv.ScpiIEEEBlockCommand cmd data = (.ok (), n) →
      PyScpiInstrument.WriteBinaryValues drv cmd data = (.ok (), n)) ∧
    (∀ (drv : Driver) (cmd : String) (data : List Nat) (e : DriverExc)
        (n : Nat),
      drv.ScpiIEEEBlockCommand cmd data = (.error e, n) →
      PyScpiInstrument.WriteBinaryValues drv cmd data =
        (.error (.driverExc e none), n)) := by
  constructor
  · intro drv cmd data n h
    simp [PyScpiInstrument.WriteBinaryValues, h]
  · intro drv cmd data e n h
    simp [PyScpiInstrument.WriteBinaryValues, h]

/-- C8 witness: a 65536-byte payload is forwarded and written without
any size check. -/
theorem writeBinaryValues_no_length_cap_witness :
    PyScpiInstrument.WriteBinaryValues (blockDriver []) "TRAC:DATA "
      (List.replicate 65536 255) = (.ok (), 1) :=
  writeBinaryValues_no_length_cap.1 (blockDriver []) "TRAC:DATA "
    (List.replicate 65536 255) 1 rfl

/-- C9: Close is idempotent — from every session state the first close
succeeds and lands in the Closed state, and a second close also
succeeds (never raises) and stays Closed. -/
theorem close_idempotent :
    ∀ s : SessionState,
      (Close s).2 = .ok () ∧
      Close (Close s).1 = (SessionState.closed, .ok ()) :=
  fun _ => ⟨rfl, rfl⟩

/-- C10 amended: every payload shorter than `10 ^ 9` bytes — so its
byte length fits the one-digit digit-count field of the IEEE framing —
round-trips: framing it with the block encoder used by the write path
and reading it back through the binary query's raw-bytes path over a
loopback wire yields the original payload. -/
theorem ieee_block_roundtrip (B : List Nat) (q : String)
    (h : B.length < 10 ^ 9) :
    PyScpiInstrument.QueryBinaryValues (blockDriver (ieeeEncode B)) q "b" =
      (.ok (.rawBytes B), 1) := by
  have hdec := ieeeDecode_ieeeEncode B h
  simp [PyScpiInstrument.QueryBinaryValues, blockDriver, blockBytesResult, hdec]

/-- C10 amended witness: a three-byte payload round-trips through the
loopback. -/
theorem ieee_block_roundtrip_witness :
    ([1, 2, 3] : List Nat).length < 10 ^ 9 ∧
    PyScpiInstrument.QueryBinaryValues (blockDriver (ieeeEncode [1, 2, 3]))
        "CURV?" "b" = (.ok (.rawBytes [1, 2, 3]), 1) :=
  ⟨by norm_num, ieee_block_roundtrip [1, 2, 3] "CURV?" (by norm_num)⟩

/-- A payload of `10 ^ 9` bytes needs a ten-digit length field, which
the one-digit digit-count slot of the framing cannot declare, so its
encoding no longer parses. -/
theorem ieeeDecode_encode_overflow :
    ieeeDecode (ieeeEncode (List.replicate (10 ^ 9) 0)) = none := by
  have hlen : (List.replicate (10 ^ 9) (0 : Nat)).length = 10 ^ 9 :=
    List.length_replicate _ _
  have hL10 : (decRepr (10 ^ 9)).length = 10 := by decide
  have h10 : decRepr 10 = [49, 48] := by decide
  have henc : ieeeEncode (List.replicate (10 ^ 9) 0) =
      35 :: 49 :: 48 :: (decRepr (10 ^ 9) ++ List.replicate (10 ^ 9) 0) := by
    rw [ieeeEncode, hlen, hL10, h10]
    rfl
  rw [henc, ieeeDecode]
  norm_num [isDigitByte, parseDec, List.length_append, hlen, hL10]

/-- Reading back a wire that does not parse as a block surfaces a
protocol error through the raw-bytes query path. -/
theorem queryBinary_bad_wire (w : List Nat) (q : String)
    (h : ieeeDecode w = none) :
    PyScpiInstrument.QueryBinaryValues (blockDriver w) q "b" =
      (.error (.driverExc .protocolError none), 1) := by
  simp [PyScpiInstrument.QueryBinaryValues, blockDriver, blockBytesResult, h]

/-- C10 counterexample: the round trip does not hold for every byte
sequence — a `10 ^ 9`-byte payload's framed encoding fails to decode,
and the loopback read surfaces a protocol error instead of the original
bytes. -/
theorem ieee_block_roundtrip_cex :
    PyScpiInstrument.QueryBinaryValues
        (blockDriver (ieeeEncode (List.replicate (10 ^ 9) 0))) "CURV?" "b" =
      (.error (.driverExc .protocolError none), 1) ∧
    ieeeDecode (ieeeEncode (List.replicate (10 ^ 9) 0)) ≠
      some (List.replicate (10 ^ 9) 0) := by
  refine ⟨queryBinary_bad_wire _ "CURV?" ieeeDecode_encode_overflow, ?_⟩
  rw [ieeeDecode_encode_overflow]
  exact fun h => Option.noConfusion h

end PyScpi
